import Mathlib

/-!
Shallow embedding of the domain-marketplace ranking module
(`backend/app/ranking.py`): scoring weights, the four component scorers,
the rank engine, and the recommendation queries.  Python floats are
modelled as rationals; the SQLAlchemy session is modelled as a snapshot
of `Domain` rows together with a flag recording whether the category
price query fails (the `try`/`except` in `calculate_price_competitiveness`).
-/

/-- WEIGHTS["keyword_relevance"] = 30. -/
def W_keyword : ℚ := 30

/-- WEIGHTS["engagement"] = 25. -/
def W_engagement : ℚ := 25

/-- WEIGHTS["price_competitiveness"] = 25. -/
def W_price : ℚ := 25

/-- WEIGHTS["conversion_signal"] = 15. -/
def W_conversion : ℚ := 15

/-- BONUSES["sold"] = 0.10. -/
def BONUS_sold : ℚ := 1/10

/-- BONUSES["high_interest"] = 0.08. -/
def BONUS_high_interest : ℚ := 2/25

/-- CTR_THRESHOLD = 0.05. -/
def CTR_THRESHOLD : ℚ := 1/20

/-- HIGH_INTEREST_THRESHOLD = 0.15. -/
def HIGH_INTEREST_THRESHOLD : ℚ := 3/20

/-- A row of the `domains` table, as read by the ranking module. -/
structure Domain where
  id : ℕ
  domain_name : String
  category : String
  price : ℚ
  keyword_score : ℚ
  views : ℕ
  clicks : ℕ
  is_sold : Bool
deriving DecidableEq

/-- The database session: a snapshot of rows plus a flag modelling a
transient failure of the category price query (the exception swallowed by
`calculate_price_competitiveness`). -/
structure DB where
  domains : List Domain
  priceQueryFails : Bool
deriving DecidableEq

/-- Python's `round` to an integer: round half to even. -/
def roundHalfEven (x : ℚ) : ℤ :=
  if 1/2 < x - ⌊x⌋ then ⌊x⌋ + 1
  else if x - ⌊x⌋ < 1/2 then ⌊x⌋
  else if ⌊x⌋ % 2 = 0 then ⌊x⌋ else ⌊x⌋ + 1

/-- Python's `round(x, 2)`. -/
def round2 (x : ℚ) : ℚ := (roundHalfEven (x * 100) : ℚ) / 100

/-- Python's `round(x, 4)`. -/
def round4 (x : ℚ) : ℚ := (roundHalfEven (x * 10000) : ℚ) / 10000

/-- `calculate_keyword_relevance`. -/
def calculate_keyword_relevance (keyword_score : ℚ) : ℚ :=
  let normalized := (keyword_score / 100) * W_keyword
  max 0 (min normalized W_keyword)

/-- `calculate_engagement`. -/
def calculate_engagement (views clicks : ℕ) : ℚ :=
  if views = 0 then
    W_engagement * (3/10)
  else
    let ctr : ℚ := (clicks : ℚ) / (views : ℚ)
    if ctr ≥ HIGH_INTEREST_THRESHOLD then
      W_engagement
    else if ctr ≥ CTR_THRESHOLD then
      W_engagement * (ctr / HIGH_INTEREST_THRESHOLD)
    else
      W_engagement * (ctr / CTR_THRESHOLD) * (1/2)

/-- The category price query
`db.query(Domain.price).filter(category == c, is_sold == False).all()`;
`Except.error` models the query raising. -/
def categoryPricesQuery (db : DB) (category : String) : Except String (List ℚ) :=
  if db.priceQueryFails then Except.error "category analysis failed"
  else Except.ok ((db.domains.filter
    (fun d => d.category = category && !d.is_sold)).map (fun d => d.price))

/-- Python's `min` over a nonempty list (0 on `[]`, unreachable in source). -/
def listMin (l : List ℚ) : ℚ :=
  match l with
  | [] => 0
  | p :: ps => ps.foldl min p

/-- Python's `max` over a nonempty list (0 on `[]`, unreachable in source). -/
def listMax (l : List ℚ) : ℚ :=
  match l with
  | [] => 0
  | p :: ps => ps.foldl max p

/-- Body of the `try` block of `calculate_price_competitiveness`, given the
list of unsold category prices. -/
def priceScoreFromPrices (domain_price : ℚ) (prices : List ℚ) : ℚ :=
  if prices.isEmpty then
    W_price * (1/2)
  else
    let min_price := listMin prices
    let max_price := listMax prices
    if min_price = max_price then
      W_price * (1/2)
    else
      let price_percentile := 1 - (domain_price - min_price) / (max_price - min_price)
      let price_percentile := max 0 (min price_percentile 1)
      W_price * price_percentile

/-- `calculate_price_competitiveness`: the `except` branch returns neutral. -/
def calculate_price_competitiveness (domain_price : ℚ) (category : String) (db : DB) : ℚ :=
  match categoryPricesQuery db category with
  | Except.error _ => W_price * (1/2)
  | Except.ok prices => priceScoreFromPrices domain_price prices

/-- `calculate_conversion_signal`. -/
def calculate_conversion_signal (is_sold : Bool) (clicks views : ℕ) : ℚ :=
  let score := W_conversion
  let score :=
    if is_sold then
      score * (1 + BONUS_sold)
    else if 0 < views then
      let ctr : ℚ := (clicks : ℚ) / (views : ℚ)
      if ctr ≥ HIGH_INTEREST_THRESHOLD then score * (1 + BONUS_high_interest) else score
    else
      score
  min score (W_conversion * (6/5))

/-- The component-score breakdown returned by `rank_domain`. -/
structure Scores where
  keyword_relevance : ℚ
  engagement : ℚ
  price_competitiveness : ℚ
  conversion_signal : ℚ
deriving DecidableEq

/-- The dictionary returned by `rank_domain`. -/
structure RankResult where
  total_score : ℚ
  scores : Scores
  explanation : String
deriving DecidableEq

/-- `f"Strong keyword relevance ({domain.keyword_score}/100)"`. -/
def strongKeywordPart (keyword_score : ℚ) : String :=
  "Strong keyword relevance (" ++ toString keyword_score ++ "/100)"

/-- `f"{ctr*100:.1f}"`: the percentage rendered with one decimal digit. -/
def pct1String (ctr : ℚ) : String :=
  let m := roundHalfEven (ctr * 1000)
  toString (m / 10) ++ "." ++ toString (m % 10)

/-- `f"High engagement ({ctr*100:.1f}% CTR)"`. -/
def highEngagementPart (ctr : ℚ) : String :=
  "High engagement (" ++ pct1String ctr ++ "% CTR)"

/-- `f"Moderate engagement ({ctr*100:.1f}% CTR)"`. -/
def moderateEngagementPart (ctr : ℚ) : String :=
  "Moderate engagement (" ++ pct1String ctr ++ "% CTR)"

/-- `"Proven conversion (sold)"`. -/
def provenConversionPart : String := "Proven conversion (sold)"

/-- `category_stats`, an optional pre-computed stats dictionary; accepted by
`rank_domain` for efficiency but never read. -/
def CategoryStats := List (String × ℚ)

/-- `rank_domain`. -/
def rank_domain (domain : Domain) (db : DB) (category_stats : Option CategoryStats) :
    RankResult :=
  let keyword_score := calculate_keyword_relevance domain.keyword_score
  let engagement_score := calculate_engagement domain.views domain.clicks
  let price_score := calculate_price_competitiveness domain.price domain.category db
  let conversion_score := calculate_conversion_signal domain.is_sold domain.clicks domain.views
  let total_score := keyword_score + engagement_score + price_score + conversion_score
  let max_possible := (W_keyword + W_engagement + W_price + W_conversion) +
    W_conversion * max BONUS_sold BONUS_high_interest
  let normalized_score := min 100 ((total_score / max_possible) * 100)
  let ctr : ℚ := if 0 < domain.views then (domain.clicks : ℚ) / (domain.views : ℚ) else 0
  let explanation_parts : List String := []
  let explanation_parts :=
    if domain.keyword_score ≥ 80 then
      explanation_parts ++ [strongKeywordPart domain.keyword_score]
    else explanation_parts
  let explanation_parts :=
    if ctr ≥ HIGH_INTEREST_THRESHOLD then
      explanation_parts ++ [highEngagementPart ctr]
    else if ctr ≥ CTR_THRESHOLD then
      explanation_parts ++ [moderateEngagementPart ctr]
    else explanation_parts
  let explanation_parts :=
    if domain.is_sold then
      explanation_parts ++ [provenConversionPart]
    else explanation_parts
  let explanation :=
    if explanation_parts.isEmpty then "Baseline domain"
    else String.intercalate "; " explanation_parts
  { total_score := round2 normalized_score
    scores :=
      { keyword_relevance := round2 keyword_score
        engagement := round2 engagement_score
        price_competitiveness := round2 price_score
        conversion_signal := round2 conversion_score }
    explanation := explanation }

/-- One entry of the list returned by `get_top_recommendations`. -/
structure RankedEntry where
  id : ℕ
  domain_name : String
  category : String
  price : ℚ
  keyword_score : ℚ
  views : ℕ
  clicks : ℕ
  ctr : ℚ
  ranking : RankResult
deriving DecidableEq

/-- The dictionary built for one domain inside `get_top_recommendations`. -/
def mkRankedEntry (d : Domain) (db : DB) : RankedEntry :=
  { id := d.id
    domain_name := d.domain_name
    category := d.category
    price := d.price
    keyword_score := d.keyword_score
    views := d.views
    clicks := d.clicks
    ctr := if 0 < d.views then round4 ((d.clicks : ℚ) / (d.views : ℚ)) else 0
    ranking := rank_domain d db none }

/-- The sort key relation of `ranked.sort(key=..., reverse=True)`:
descending by `ranking.total_score`. -/
def entryLE (a b : RankedEntry) : Bool :=
  decide (b.ranking.total_score ≤ a.ranking.total_score)

/-- `get_top_recommendations`. -/
def get_top_recommendations (db : DB) (limit : ℕ) (price_min price_max : Option ℚ)
    (category_filter : Option String) : List RankedEntry :=
  let passes := fun (d : Domain) =>
    !d.is_sold
    && (match price_min with
        | none => true
        | some m => decide (d.price ≥ m))
    && (match price_max with
        | none => true
        | some m => decide (d.price ≤ m))
    && (match category_filter with
        | none => true
        | some c => decide (d.category = c))
  let domains := db.domains.filter passes
  let ranked := domains.map (fun d => mkRankedEntry d db)
  (ranked.mergeSort entryLE).take limit

/-- `get_category_recommendations`. -/
def get_category_recommendations (db : DB) (category : String) (limit : ℕ)
    (price_min price_max : Option ℚ) : List RankedEntry :=
  get_top_recommendations db limit price_min price_max (some category)

/-! ### Concrete instances used by witnesses and counterexamples -/

/-- A high-performing unsold listing, cheapest in its category. -/
def d1 : Domain :=
  { id := 1, domain_name := "alpha.com", category := "tech", price := 100,
    keyword_score := 100, views := 1000, clicks := 200, is_sold := false }

/-- A second unsold listing in the same category with a higher price. -/
def d2 : Domain :=
  { id := 2, domain_name := "beta.com", category := "tech", price := 200,
    keyword_score := 50, views := 0, clicks := 0, is_sold := false }

/-- A two-listing database whose price query succeeds. -/
def db0 : DB := { domains := [d1, d2], priceQueryFails := false }

/-- The same listings but with the category price query failing. -/
def dbFail : DB := { domains := [d1, d2], priceQueryFails := true }

/-! ### Helper lemmas -/

theorem le_roundHalfEven (x : ℚ) : ⌊x⌋ ≤ roundHalfEven x := by
  simp only [roundHalfEven]
  split_ifs <;> omega

theorem roundHalfEven_le (x : ℚ) : roundHalfEven x ≤ ⌊x⌋ + 1 := by
  simp only [roundHalfEven]
  split_ifs <;> omega

theorem round2_nonneg (x : ℚ) (h : 0 ≤ x) : 0 ≤ round2 x := by
  unfold round2
  have h1 : (0 : ℤ) ≤ ⌊x * 100⌋ := Int.floor_nonneg.mpr (by positivity)
  have h2 := le_roundHalfEven (x * 100)
  have h3 : (0 : ℤ) ≤ roundHalfEven (x * 100) := le_trans h1 h2
  have h4 : (0 : ℚ) ≤ (roundHalfEven (x * 100) : ℚ) := by exact_mod_cast h3
  positivity

theorem round2_le_100 (x : ℚ) (h : x ≤ 100) : round2 x ≤ 100 := by
  unfold round2
  have hx : x * 100 ≤ 10000 := by linarith
  have hf : ⌊x * 100⌋ ≤ 10000 := by
    calc ⌊x * 100⌋ ≤ ⌊(10000 : ℚ)⌋ := Int.floor_le_floor hx
    _ = 10000 := by
      rw [show ((10000 : ℚ)) = ((10000 : ℤ) : ℚ) by norm_num, Int.floor_intCast]
  by_cases h9 : ⌊x * 100⌋ ≤ 9999
  · have hr : roundHalfEven (x * 100) ≤ 10000 := by
      have := roundHalfEven_le (x * 100); omega
    have : (roundHalfEven (x * 100) : ℚ) ≤ 10000 := by exact_mod_cast hr
    linarith
  · have hn : ⌊x * 100⌋ = 10000 := by omega
    have hge : (10000 : ℚ) ≤ x * 100 := by
      have := Int.floor_le (x * 100)
      rw [hn] at this
      exact_mod_cast this
    have heq : x * 100 = 10000 := le_antisymm hx hge
    have hr : roundHalfEven (x * 100) = 10000 := by
      simp only [roundHalfEven, hn, heq]
      norm_num
    rw [hr]
    norm_num

theorem keyword_relevance_bounds (k : ℚ) :
    0 ≤ calculate_keyword_relevance k ∧ calculate_keyword_relevance k ≤ W_keyword := by
  unfold calculate_keyword_relevance
  exact ⟨le_max_left 0 _, max_le (by norm_num [W_keyword]) (min_le_right _ _)⟩

theorem engagement_bounds (views clicks : ℕ) :
    0 ≤ calculate_engagement views clicks ∧ calculate_engagement views clicks ≤ W_engagement := by
  simp only [calculate_engagement, ge_iff_le]
  have hctr0 : (0 : ℚ) ≤ (clicks : ℚ) / (views : ℚ) := by positivity
  split_ifs with h0 h1 h2
  · norm_num [W_engagement]
  · norm_num [W_engagement]
  · rw [not_le] at h1
    have hdiv : ((clicks : ℚ) / (views : ℚ)) / HIGH_INTEREST_THRESHOLD ≤ 1 :=
      (div_le_one (by norm_num [HIGH_INTEREST_THRESHOLD])).mpr h1.le
    have hdiv0 : (0 : ℚ) ≤ ((clicks : ℚ) / (views : ℚ)) / HIGH_INTEREST_THRESHOLD :=
      div_nonneg hctr0 (by norm_num [HIGH_INTEREST_THRESHOLD])
    constructor
    · exact mul_nonneg (by norm_num [W_engagement]) hdiv0
    · calc W_engagement * (((clicks : ℚ) / (views : ℚ)) / HIGH_INTEREST_THRESHOLD)
          ≤ W_engagement * 1 :=
            mul_le_mul_of_nonneg_left hdiv (by norm_num [W_engagement])
      _ = W_engagement := mul_one _
  · rw [not_le] at h2
    have hdiv : ((clicks : ℚ) / (views : ℚ)) / CTR_THRESHOLD ≤ 1 :=
      (div_le_one (by norm_num [CTR_THRESHOLD])).mpr h2.le
    have hdiv0 : (0 : ℚ) ≤ ((clicks : ℚ) / (views : ℚ)) / CTR_THRESHOLD :=
      div_nonneg hctr0 (by norm_num [CTR_THRESHOLD])
    constructor
    · exact mul_nonneg (mul_nonneg (by norm_num [W_engagement]) hdiv0) (by norm_num)
    · calc W_engagement * (((clicks : ℚ) / (views : ℚ)) / CTR_THRESHOLD) * (1/2)
          ≤ W_engagement * 1 * (1/2) := by
            apply mul_le_mul_of_nonneg_right _ (by norm_num)
            exact mul_le_mul_of_nonneg_left hdiv (by norm_num [W_engagement])
      _ ≤ W_engagement := by norm_num [W_engagement]

theorem price_score_from_prices_bounds (p : ℚ) (prices : List ℚ) :
    0 ≤ priceScoreFromPrices p prices ∧ priceScoreFromPrices p prices ≤ W_price := by
  simp only [priceScoreFromPrices]
  split_ifs with h1 h2
  · norm_num [W_price]
  · norm_num [W_price]
  · have hc0 : (0 : ℚ) ≤ max 0 (min (1 - (p - listMin prices) / (listMax prices - listMin prices)) 1) :=
      le_max_left 0 _
    have hc1 : max 0 (min (1 - (p - listMin prices) / (listMax prices - listMin prices)) 1) ≤ 1 :=
      max_le (by norm_num) (min_le_right _ _)
    constructor
    · exact mul_nonneg (by norm_num [W_price]) hc0
    · calc W_price * max 0 (min (1 - (p - listMin prices) / (listMax prices - listMin prices)) 1)
          ≤ W_price * 1 := mul_le_mul_of_nonneg_left hc1 (by norm_num [W_price])
      _ = W_price := mul_one _

theorem price_competitiveness_bounds (p : ℚ) (cat : String) (db : DB) :
    0 ≤ calculate_price_competitiveness p cat db ∧
      calculate_price_competitiveness p cat db ≤ W_price := by
  unfold calculate_price_competitiveness
  cases categoryPricesQuery db cat with
  | error e => exact ⟨by norm_num [W_price], by norm_num [W_price]⟩
  | ok prices => exact price_score_from_prices_bounds p prices

theorem conversion_signal_bounds (is_sold : Bool) (clicks views : ℕ) :
    W_conversion ≤ calculate_conversion_signal is_sold clicks views ∧
      calculate_conversion_signal is_sold clicks views ≤ W_conversion * (6/5) := by
  simp only [calculate_conversion_signal, ge_iff_le]
  refine ⟨le_min ?_ (by norm_num [W_conversion]), min_le_right _ _⟩
  split_ifs <;> norm_num [W_conversion, BONUS_sold, BONUS_high_interest]

theorem foldl_min_le_foldl_max (ps : List ℚ) :
    ∀ a b : ℚ, a ≤ b → ps.foldl min a ≤ ps.foldl max b := by
  induction ps with
  | nil => intro a b h; exact h
  | cons q ps ih =>
    intro a b h
    exact ih _ _ (le_trans (min_le_left a q) (le_trans h (le_max_left b q)))

theorem listMin_le_listMax (l : List ℚ) : listMin l ≤ listMax l := by
  cases l with
  | nil => exact le_refl 0
  | cons p ps => exact foldl_min_le_foldl_max ps p p le_rfl

/-! ### Claim theorems -/

/-- C2 (code evaluation at the failing input): `calculate_engagement` is not
monotone in CTR and not continuous at the CTR = 0.05 tier boundary.  With
1000 views, 49 clicks (CTR = 0.049) score 12.25, while 50 clicks
(CTR = 0.05, the threshold itself) score only 25/3 ≈ 8.33: the curve jumps
downward at the boundary, although the code's own comments promise 50% of
the weight at 5% CTR. -/
theorem calculate_engagement_boundary_drop :
    calculate_engagement 1000 49 = 49/4 ∧
    calculate_engagement 1000 50 = 25/3 ∧
    calculate_engagement 1000 50 < calculate_engagement 1000 49 := by
  have h49 : calculate_engagement 1000 49 = 49/4 := by
    norm_num [calculate_engagement, W_engagement, CTR_THRESHOLD, HIGH_INTEREST_THRESHOLD]
  have h50 : calculate_engagement 1000 50 = 25/3 := by
    norm_num [calculate_engagement, W_engagement, CTR_THRESHOLD, HIGH_INTEREST_THRESHOLD]
  exact ⟨h49, h50, by rw [h49, h50]; norm_num⟩

/-- C3: for every structurally valid listing (positive price, keyword score
in [0,100], nonnegative views and clicks) and every database snapshot, the
`total_score` returned by `rank_domain` lies in [0, 100]. -/
theorem rank_domain_total_score_in_range (d : Domain) (db : DB) (stats : Option CategoryStats)
    (hp : 0 < d.price) (hk0 : 0 ≤ d.keyword_score) (hk1 : d.keyword_score ≤ 100) :
    0 ≤ (rank_domain d db stats).total_score ∧ (rank_domain d db stats).total_score ≤ 100 := by
  obtain ⟨k0, k1⟩ := keyword_relevance_bounds d.keyword_score
  obtain ⟨e0, e1⟩ := engagement_bounds d.views d.clicks
  obtain ⟨p0, p1⟩ := price_competitiveness_bounds d.price d.category db
  obtain ⟨c0, c1⟩ := conversion_signal_bounds d.is_sold d.clicks d.views
  have hts : (rank_domain d db stats).total_score =
      round2 (min 100 (((calculate_keyword_relevance d.keyword_score +
        calculate_engagement d.views d.clicks +
        calculate_price_competitiveness d.price d.category db +
        calculate_conversion_signal d.is_sold d.clicks d.views) /
        ((W_keyword + W_engagement + W_price + W_conversion) +
          W_conversion * max BONUS_sold BONUS_high_interest)) * 100)) := rfl
  have hc0' : (0 : ℚ) ≤ calculate_conversion_signal d.is_sold d.clicks d.views := by
    have : (0 : ℚ) ≤ W_conversion := by norm_num [W_conversion]
    linarith
  have hS : (0 : ℚ) ≤ calculate_keyword_relevance d.keyword_score +
      calculate_engagement d.views d.clicks +
      calculate_price_competitiveness d.price d.category db +
      calculate_conversion_signal d.is_sold d.clicks d.views := by linarith
  have hM : (0 : ℚ) ≤ (W_keyword + W_engagement + W_price + W_conversion) +
      W_conversion * max BONUS_sold BONUS_high_interest := by
    have : max BONUS_sold BONUS_high_interest = BONUS_sold :=
      max_eq_left (by norm_num [BONUS_sold, BONUS_high_interest])
    rw [this]
    norm_num [W_keyword, W_engagement, W_price, W_conversion, BONUS_sold]
  have hx0 : (0 : ℚ) ≤ min 100 (((calculate_keyword_relevance d.keyword_score +
      calculate_engagement d.views d.clicks +
      calculate_price_competitiveness d.price d.category db +
      calculate_conversion_signal d.is_sold d.clicks d.views) /
      ((W_keyword + W_engagement + W_price + W_conversion) +
        W_conversion * max BONUS_sold BONUS_high_interest)) * 100) :=
    le_min (by norm_num) (mul_nonneg (div_nonneg hS hM) (by norm_num))
  have hx1 : min 100 (((calculate_keyword_relevance d.keyword_score +
      calculate_engagement d.views d.clicks +
      calculate_price_competitiveness d.price d.category db +
      calculate_conversion_signal d.is_sold d.clicks d.views) /
      ((W_keyword + W_engagement + W_price + W_conversion) +
        W_conversion * max BONUS_sold BONUS_high_interest)) * 100) ≤ 100 :=
    min_le_left _ _
  rw [hts]
  exact ⟨round2_nonneg _ hx0, round2_le_100 _ hx1⟩

/-- C3 witness: the range invariant instantiated at a concrete listing. -/
theorem rank_domain_total_score_in_range_witness :
    0 < d1.price ∧ 0 ≤ d1.keyword_score ∧ d1.keyword_score ≤ 100 ∧
    (0 ≤ (rank_domain d1 db0 none).total_score ∧
      (rank_domain d1 db0 none).total_score ≤ 100) :=
  ⟨by norm_num [d1], by norm_num [d1], by norm_num [d1],
    rank_domain_total_score_in_range d1 db0 none (by norm_num [d1]) (by norm_num [d1])
      (by norm_num [d1])⟩

/-- C5: the conversion signal is `W_conversion * (1 + bonus_sold)` when sold,
`W_conversion * (1 + bonus_high_interest)` when unsold but high-interest
(views > 0 and CTR ≥ 0.15), and exactly `W_conversion` otherwise; it never
exceeds `W_conversion * 1.2`, and an unsold listing never outscores a sold
one. -/
theorem calculate_conversion_signal_spec (clicks views : ℕ) :
    calculate_conversion_signal true clicks views = W_conversion * (1 + BONUS_sold) ∧
    ((0 < views ∧ HIGH_INTEREST_THRESHOLD ≤ (clicks : ℚ) / (views : ℚ)) →
      calculate_conversion_signal false clicks views = W_conversion * (1 + BONUS_high_interest)) ∧
    (¬(0 < views ∧ HIGH_INTEREST_THRESHOLD ≤ (clicks : ℚ) / (views : ℚ)) →
      calculate_conversion_signal false clicks views = W_conversion) ∧
    (∀ is_sold : Bool,
      calculate_conversion_signal is_sold clicks views ≤ W_conversion * (6/5)) ∧
    calculate_conversion_signal false clicks views ≤
      calculate_conversion_signal true clicks views := by
  have hsold : calculate_conversion_signal true clicks views = W_conversion * (1 + BONUS_sold) := by
    simp only [calculate_conversion_signal, if_pos]
    norm_num [W_conversion, BONUS_sold, min_def]
  refine ⟨hsold, ?_, ?_, ?_, ?_⟩
  · rintro ⟨hv, hctr⟩
    simp only [calculate_conversion_signal, Bool.false_eq_true, if_false, if_pos hv,
      ge_iff_le, if_pos hctr]
    norm_num [W_conversion, BONUS_high_interest, min_def]
  · intro h
    simp only [calculate_conversion_signal, Bool.false_eq_true, if_false, ge_iff_le]
    by_cases hv : 0 < views
    · have hctr : ¬ HIGH_INTEREST_THRESHOLD ≤ (clicks : ℚ) / (views : ℚ) := fun hc => h ⟨hv, hc⟩
      rw [if_pos hv, if_neg hctr]
      norm_num [W_conversion, min_def]
    · rw [if_neg hv]
      norm_num [W_conversion, min_def]
  · intro is_sold
    simp only [calculate_conversion_signal]
    exact min_le_right _ _
  · simp only [calculate_conversion_signal, Bool.false_eq_true, if_false, if_pos, ge_iff_le]
    split_ifs <;> norm_num [W_conversion, BONUS_sold, BONUS_high_interest, min_def]

/-- C5 witness: the conversion-signal branches at concrete inputs
(30 clicks / 100 views is high interest, 1 click / 100 views is not). -/
theorem calculate_conversion_signal_spec_witness :
    calculate_conversion_signal false 30 100 = W_conversion * (1 + BONUS_high_interest) ∧
    calculate_conversion_signal false 1 100 = W_conversion :=
  ⟨(calculate_conversion_signal_spec 30 100).2.1
      (by norm_num [HIGH_INTEREST_THRESHOLD]),
    (calculate_conversion_signal_spec 1 100).2.2.1
      (by norm_num [HIGH_INTEREST_THRESHOLD])⟩

/-- C9: the category-scoped query is definitionally the generic query with
the category filter supplied. -/
theorem get_category_recommendations_eq_get_top (db : DB) (category : String) (limit : ℕ)
    (price_min price_max : Option ℚ) :
    get_category_recommendations db category limit price_min price_max =
      get_top_recommendations db limit price_min price_max (some category) := rfl

/-- C10: `rank_domain` never reads its `category_stats` argument, so any two
values of it (including `none`) give identical results. -/
theorem rank_domain_ignores_category_stats (d : Domain) (db : DB)
    (s1 s2 : Option CategoryStats) :
    rank_domain d db s1 = rank_domain d db s2 := rfl

/-- C4: price competitiveness returns the neutral `W_price * 0.5` when there
are no unsold comparables or the category price range is degenerate;
otherwise it is `W_price` times the clamped percentile
`1 - (price - min) / (max - min)`, which is antitone in price, gives the
cheapest listing the full weight and the most expensive listing zero. -/
theorem calculate_price_competitiveness_spec (db : DB) (cat : String) (prices : List ℚ)
    (hq : categoryPricesQuery db cat = Except.ok prices) :
    ((prices = [] ∨ listMin prices = listMax prices) →
      ∀ p, calculate_price_competitiveness p cat db = W_price * (1/2)) ∧
    (listMin prices ≠ listMax prices →
      (∀ p, calculate_price_competitiveness p cat db =
        W_price * max 0 (min (1 - (p - listMin prices) / (listMax prices - listMin prices)) 1)) ∧
      (∀ p1 p2, p1 < p2 →
        calculate_price_competitiveness p2 cat db ≤ calculate_price_competitiveness p1 cat db) ∧
      calculate_price_competitiveness (listMin prices) cat db = W_price ∧
      calculate_price_competitiveness (listMax prices) cat db = 0) := by
  have hcp : ∀ p, calculate_price_competitiveness p cat db = priceScoreFromPrices p prices := by
    intro p
    simp only [calculate_price_competitiveness, hq]
  constructor
  · rintro (hnil | heq) p <;> rw [hcp]
    · subst hnil
      simp [priceScoreFromPrices]
    · cases prices with
      | nil => simp [priceScoreFromPrices]
      | cons q qs =>
        simp only [priceScoreFromPrices, List.isEmpty_cons, Bool.false_eq_true, if_false]
        rw [if_pos heq]
  · intro hne
    have hlt : listMin prices < listMax prices :=
      lt_of_le_of_ne (listMin_le_listMax prices) hne
    have hden : (0 : ℚ) < listMax prices - listMin prices := sub_pos.mpr hlt
    have hform : ∀ p, calculate_price_competitiveness p cat db =
        W_price * max 0 (min (1 - (p - listMin prices) / (listMax prices - listMin prices)) 1) := by
      intro p
      rw [hcp]
      cases prices with
      | nil => exact absurd rfl hne
      | cons q qs =>
        simp only [priceScoreFromPrices, List.isEmpty_cons, Bool.false_eq_true, if_false]
        rw [if_neg hne]
    refine ⟨hform, ?_, ?_, ?_⟩
    · intro p1 p2 h12
      rw [hform, hform]
      refine mul_le_mul_of_nonneg_left ?_ (by norm_num [W_price])
      refine max_le_max le_rfl (min_le_min ?_ le_rfl)
      have := (div_le_div_iff_of_pos_right hden).mpr (sub_le_sub_right h12.le (listMin prices))
      linarith
    · rw [hform]
      norm_num
    · rw [hform, div_self (ne_of_gt hden)]
      norm_num

/-- C4 witness: in a category with unsold prices 100 and 200, the cheapest
listing earns the full price weight and the most expensive earns zero. -/
theorem calculate_price_competitiveness_spec_witness :
    calculate_price_competitiveness 100 "tech" db0 = W_price ∧
    calculate_price_competitiveness 200 "tech" db0 = 0 := by
  have h := (calculate_price_competitiveness_spec db0 "tech" [100, 200] rfl).2
    (by norm_num [listMin, listMax, min_def, max_def])
  have hmin : listMin [100, 200] = (100 : ℚ) := by norm_num [listMin, min_def]
  have hmax : listMax [100, 200] = (200 : ℚ) := by norm_num [listMax, max_def]
  obtain ⟨-, -, hcheap, hdear⟩ := h
  rw [hmin] at hcheap
  rw [hmax] at hdear
  exact ⟨hcheap, hdear⟩

/-- C8: when gathering category prices fails, the price scorer returns the
neutral `W_price * 0.5` instead of propagating the fault, and `rank_domain`
still returns the same score result as it would over an empty comparable
set — scoring never hard-fails. -/
theorem price_query_error_degrades (db : DB) (hfail : db.priceQueryFails = true)
    (p : ℚ) (cat : String) (d : Domain) (stats : Option CategoryStats) :
    calculate_price_competitiveness p cat db = W_price * (1/2) ∧
    rank_domain d db stats =
      rank_domain d { domains := [], priceQueryFails := false } stats := by
  have hneutral : ∀ (q : ℚ) (c : String),
      calculate_price_competitiveness q c db = W_price * (1/2) := by
    intro q c
    simp [calculate_price_competitiveness, categoryPricesQuery, hfail]
  have hempty : ∀ (q : ℚ) (c : String),
      calculate_price_competitiveness q c { domains := [], priceQueryFails := false } =
        W_price * (1/2) := by
    intro q c
    simp [calculate_price_competitiveness, categoryPricesQuery, priceScoreFromPrices]
  refine ⟨hneutral p cat, ?_⟩
  simp only [rank_domain, hneutral, hempty]

/-- C8 witness: with the price query failing over the concrete snapshot, the
scorer is neutral and `rank_domain` still produces its result. -/
theorem price_query_error_degrades_witness :
    calculate_price_competitiveness 100 "tech" dbFail = W_price * (1/2) ∧
    rank_domain d1 dbFail none =
      rank_domain d1 { domains := [], priceQueryFails := false } none :=
  price_query_error_degrades dbFail rfl 100 "tech" d1 none

/-- C7: the explanation produced by `rank_domain` is exactly the "; "-join
of the parts triggered, in order, by keyword_score ≥ 80, then CTR ≥ 0.15
(else CTR ≥ 0.05), then sold status; when no condition triggers it is the
literal string "Baseline domain". -/
theorem rank_domain_explanation_spec (d : Domain) (db : DB) (stats : Option CategoryStats) :
    (rank_domain d db stats).explanation =
      (let ctr : ℚ := if 0 < d.views then (d.clicks : ℚ) / (d.views : ℚ) else 0
       let parts : List String :=
         (if d.keyword_score ≥ 80 then [strongKeywordPart d.keyword_score] else []) ++
         ((if ctr ≥ HIGH_INTEREST_THRESHOLD then [highEngagementPart ctr]
           else if ctr ≥ CTR_THRESHOLD then [moderateEngagementPart ctr] else []) ++
          (if d.is_sold then [provenConversionPart] else []))
       if parts.isEmpty then "Baseline domain" else String.intercalate "; " parts) := by
  simp only [rank_domain]
  split_ifs <;> simp_all

theorem round2_eq_self_of_cast (q : ℚ) (n : ℤ) (h : q * 100 = (n : ℚ)) : round2 q = q := by
  unfold round2 roundHalfEven
  rw [h, Int.floor_intCast]
  rw [if_neg (by norm_num), if_pos (by norm_num)]
  rw [eq_comm, eq_div_iff (by norm_num : (100 : ℚ) ≠ 0)]
  exact h

theorem scenario1_rank_eval (d : Domain) (db : DB) (stats : Option CategoryStats)
    (hk : d.keyword_score = 100) (hv : d.views = 1000) (hc : d.clicks = 200)
    (hs : d.is_sold = false) (prices : List ℚ)
    (hq : categoryPricesQuery db d.category = Except.ok prices)
    (hmin : listMin prices = d.price) (hne : listMin prices ≠ listMax prices) :
    (rank_domain d db stats).scores.keyword_relevance = W_keyword ∧
    (rank_domain d db stats).scores.engagement = W_engagement ∧
    (rank_domain d db stats).scores.price_competitiveness = W_price ∧
    (rank_domain d db stats).scores.conversion_signal =
      W_conversion * (1 + BONUS_high_interest) ∧
    (rank_domain d db stats).total_score = 9969/100 := by
  have hkw : calculate_keyword_relevance d.keyword_score = W_keyword := by
    rw [hk]
    norm_num [calculate_keyword_relevance, W_keyword, min_def, max_def]
  have hen : calculate_engagement d.views d.clicks = W_engagement := by
    rw [hv, hc]
    norm_num [calculate_engagement, W_engagement, HIGH_INTEREST_THRESHOLD]
  have hpc : calculate_price_competitiveness d.price d.category db = W_price := by
    simp only [calculate_price_competitiveness, hq]
    cases prices with
    | nil => exact absurd rfl hne
    | cons q qs =>
      simp only [priceScoreFromPrices, List.isEmpty_cons, Bool.false_eq_true, if_false]
      rw [if_neg hne, show d.price - listMin (q :: qs) = 0 by rw [hmin]; exact sub_self _]
      norm_num
  have hcv : calculate_conversion_signal d.is_sold d.clicks d.views =
      W_conversion * (1 + BONUS_high_interest) := by
    rw [hs, hv, hc]
    norm_num [calculate_conversion_signal, W_conversion, BONUS_high_interest,
      HIGH_INTEREST_THRESHOLD, min_def]
  have hkw2 : (rank_domain d db stats).scores.keyword_relevance =
      round2 (calculate_keyword_relevance d.keyword_score) := rfl
  have hen2 : (rank_domain d db stats).scores.engagement =
      round2 (calculate_engagement d.views d.clicks) := rfl
  have hpc2 : (rank_domain d db stats).scores.price_competitiveness =
      round2 (calculate_price_competitiveness d.price d.category db) := rfl
  have hcv2 : (rank_domain d db stats).scores.conversion_signal =
      round2 (calculate_conversion_signal d.is_sold d.clicks d.views) := rfl
  have hts : (rank_domain d db stats).total_score =
      round2 (min 100 (((calculate_keyword_relevance d.keyword_score +
        calculate_engagement d.views d.clicks +
        calculate_price_competitiveness d.price d.category db +
        calculate_conversion_signal d.is_sold d.clicks d.views) /
        ((W_keyword + W_engagement + W_price + W_conversion) +
          W_conversion * max BONUS_sold BONUS_high_interest)) * 100)) := rfl
  refine ⟨?_, ?_, ?_, ?_, ?_⟩
  · rw [hkw2, hkw]
    exact round2_eq_self_of_cast _ 3000 (by norm_num [W_keyword])
  · rw [hen2, hen]
    exact round2_eq_self_of_cast _ 2500 (by norm_num [W_engagement])
  · rw [hpc2, hpc]
    exact round2_eq_self_of_cast _ 2500 (by norm_num [W_price])
  · rw [hcv2, hcv]
    exact round2_eq_self_of_cast _ 1620 (by norm_num [W_conversion, BONUS_high_interest])
  · rw [hts, hkw, hen, hpc, hcv]
    have hmax : max BONUS_sold BONUS_high_interest = BONUS_sold :=
      max_eq_left (by norm_num [BONUS_sold, BONUS_high_interest])
    rw [hmax]
    have harg : (W_keyword + W_engagement + W_price + W_conversion * (1 + BONUS_high_interest)) /
        ((W_keyword + W_engagement + W_price + W_conversion) + W_conversion * BONUS_sold) * 100 =
        19240/193 := by
      norm_num [W_keyword, W_engagement, W_price, W_conversion, BONUS_sold, BONUS_high_interest]
    rw [harg, min_eq_right (by norm_num : (19240/193 : ℚ) ≤ 100)]
    have hfl : ⌊(19240/193 : ℚ) * 100⌋ = 9968 := by
      rw [show (19240/193 : ℚ) * 100 = 1924000/193 by norm_num, Int.floor_eq_iff]
      constructor <;> norm_num
    unfold round2 roundHalfEven
    rw [hfl, if_pos]
    · norm_num
    · rw [show ((9968 : ℤ) : ℚ) = 9968 by norm_num]
      norm_num

/-- C6 counterexample: the scenario-1 listing (keyword 100, views 1000,
clicks 200, unsold, cheapest in a non-degenerate category) does NOT get a
normalized total of 100: the high-interest bonus (8%) cannot reach the
normalization ceiling, which is computed with the larger sold bonus (10%),
so the total is 99.69. -/
theorem rank_domain_scenario1_not_100 :
    (rank_domain d1 db0 none).total_score ≠ 100 := by
  have h := (scenario1_rank_eval d1 db0 none rfl rfl rfl rfl [100, 200] rfl
    (by norm_num [listMin, min_def, d1])
    (by norm_num [listMin, listMax, min_def, max_def])).2.2.2.2
  rw [h]
  norm_num

/-- C6 (amended): for a listing with keyword_score 100, views 1000, clicks
200, unsold, priced at the minimum of a non-degenerate unsold category
range, `rank_domain` reports the full keyword, engagement and price weights
and the high-interest conversion bonus `W_conversion * 1.08` (below the 1.2
cap), and the normalized total is 99.69 — not 100, because the
normalization ceiling assumes the larger sold bonus. -/
theorem rank_domain_scenario1_amended (d : Domain) (db : DB) (stats : Option CategoryStats)
    (hk : d.keyword_score = 100) (hv : d.views = 1000) (hc : d.clicks = 200)
    (hs : d.is_sold = false) (prices : List ℚ)
    (hq : categoryPricesQuery db d.category = Except.ok prices)
    (hmin : listMin prices = d.price) (hne : listMin prices ≠ listMax prices) :
    (rank_domain d db stats).scores.keyword_relevance = W_keyword ∧
    (rank_domain d db stats).scores.engagement = W_engagement ∧
    (rank_domain d db stats).scores.price_competitiveness = W_price ∧
    (rank_domain d db stats).scores.conversion_signal =
      W_conversion * (1 + BONUS_high_interest) ∧
    (rank_domain d db stats).total_score = 9969/100 :=
  scenario1_rank_eval d db stats hk hv hc hs prices hq hmin hne

/-- C6 witness: the amended scenario instantiated at the concrete snapshot
with unsold category prices 100 and 200. -/
theorem rank_domain_scenario1_amended_witness :
    (rank_domain d1 db0 none).scores.keyword_relevance = W_keyword ∧
    (rank_domain d1 db0 none).scores.engagement = W_engagement ∧
    (rank_domain d1 db0 none).scores.price_competitiveness = W_price ∧
    (rank_domain d1 db0 none).scores.conversion_signal =
      W_conversion * (1 + BONUS_high_interest) ∧
    (rank_domain d1 db0 none).total_score = 9969/100 :=
  rank_domain_scenario1_amended d1 db0 none rfl rfl rfl rfl [100, 200] rfl
    (by norm_num [listMin, min_def, d1])
    (by norm_num [listMin, listMax, min_def, max_def])

/-- C1: for every candidate set, limit ≥ 1, and optional price/category
filters, `get_top_recommendations` returns at most `limit` entries, each
built from an unsold stored listing satisfying the supplied filters, and
the returned sequence is sorted in descending order of
`ranking.total_score`. -/
theorem get_top_recommendations_spec (db : DB) (limit : ℕ)
    (price_min price_max : Option ℚ) (category_filter : Option String)
    (hlim : 1 ≤ limit) :
    (get_top_recommendations db limit price_min price_max category_filter).length ≤ limit ∧
    (∀ e ∈ get_top_recommendations db limit price_min price_max category_filter,
      (∃ d ∈ db.domains, d.is_sold = false ∧ e = mkRankedEntry d db) ∧
      (∀ m, price_min = some m → m ≤ e.price) ∧
      (∀ m, price_max = some m → e.price ≤ m) ∧
      (∀ c, category_filter = some c → e.category = c)) ∧
    (get_top_recommendations db limit price_min price_max category_filter).Pairwise
      (fun a b => b.ranking.total_score ≤ a.ranking.total_score) := by
  refine ⟨?_, ?_, ?_⟩
  · exact List.length_take_le _ _
  · intro e he
    have he1 := List.mem_of_mem_take he
    rw [List.mem_mergeSort] at he1
    obtain ⟨d, hd, rfl⟩ := List.mem_map.mp he1
    rw [List.mem_filter] at hd
    obtain ⟨hdmem, hpass⟩ := hd
    simp only [Bool.and_eq_true, Bool.not_eq_true'] at hpass
    obtain ⟨⟨⟨hsold, hpmin⟩, hpmax⟩, hcat⟩ := hpass
    refine ⟨⟨d, hdmem, hsold, rfl⟩, ?_, ?_, ?_⟩
    · intro m hm
      subst hm
      simp only [decide_eq_true_eq] at hpmin
      exact hpmin
    · intro m hm
      subst hm
      simp only [decide_eq_true_eq] at hpmax
      exact hpmax
    · intro c hc
      subst hc
      simp only [decide_eq_true_eq] at hcat
      exact hcat
  · have htrans : ∀ a b c : RankedEntry, entryLE a b → entryLE b c → entryLE a c := by
      intro a b c h1 h2
      simp only [entryLE, decide_eq_true_eq] at h1 h2 ⊢
      exact le_trans h2 h1
    have htotal : ∀ a b : RankedEntry, entryLE a b || entryLE b a := by
      intro a b
      simp only [entryLE, Bool.or_eq_true, decide_eq_true_eq]
      exact le_total _ _
    have hs := List.sorted_mergeSort htrans htotal
      (((db.domains.filter (fun d =>
        !d.is_sold
        && (match price_min with
            | none => true
            | some m => decide (d.price ≥ m))
        && (match price_max with
            | none => true
            | some m => decide (d.price ≤ m))
        && (match category_filter with
            | none => true
            | some c => decide (d.category = c)))).map (fun d => mkRankedEntry d db)))
    have hs' : (List.mergeSort ((db.domains.filter (fun d =>
        !d.is_sold
        && (match price_min with
            | none => true
            | some m => decide (d.price ≥ m))
        && (match price_max with
            | none => true
            | some m => decide (d.price ≤ m))
        && (match category_filter with
            | none => true
            | some c => decide (d.category = c)))).map (fun d => mkRankedEntry d db))
        entryLE).Pairwise
        (fun a b => b.ranking.total_score ≤ a.ranking.total_score) := by
      refine hs.imp ?_
      intro a b h
      simpa only [entryLE, decide_eq_true_eq] using h
    exact List.Pairwise.sublist (List.take_sublist _ _) hs'

/-- C1 witness: the query contract instantiated at the concrete snapshot
with limit 2 and no filters. -/
theorem get_top_recommendations_spec_witness :
    1 ≤ 2 ∧
    ((get_top_recommendations db0 2 none none none).length ≤ 2 ∧
    (∀ e ∈ get_top_recommendations db0 2 none none none,
      (∃ d ∈ db0.domains, d.is_sold = false ∧ e = mkRankedEntry d db0) ∧
      (∀ m, (none : Option ℚ) = some m → m ≤ e.price) ∧
      (∀ m, (none : Option ℚ) = some m → e.price ≤ m) ∧
      (∀ c, (none : Option String) = some c → e.category = c)) ∧
    (get_top_recommendations db0 2 none none none).Pairwise
      (fun a b => b.ranking.total_score ≤ a.ranking.total_score)) :=
  ⟨by norm_num, get_top_recommendations_spec db0 2 none none none (by norm_num)⟩
